import Mathlib

/-!
Verification of the connection-state reconciliation logic of the assistant
frontend: the socket wrappers `ApiService` (frontend/src/services/api.js and
its variant in part_015), `WebSocketService` (part_015), the `App` component's
lifecycle handlers (App.js / part_001), and the `socketService` helpers
(part_014).  Each JavaScript function is embedded as an executable Lean
definition; handlers are identified by natural-number ids and their dynamic
behaviour (whether a given handler throws) is a Boolean-valued parameter.
-/

namespace Assistant

/-- The five user-facing connection statuses used by the App components. -/
inductive ConnStatus
  | disconnected
  | connecting
  | connected
  | reconnecting
  | error
  deriving DecidableEq, Repr

/-- `App.js` `onDisconnect` handler (lines 148-152): on a disconnect event the
status becomes `disconnected` when the reason is the magic string
`io client disconnect`, otherwise `reconnecting`.  The handler ignores the
previous status, so it is passed only for faithfulness to the call site. -/
def appOnDisconnect (_st : ConnStatus) (reason : String) : ConnStatus :=
  if reason = "io client disconnect" then .disconnected else .reconnecting

/-- `App.js` `onConnectError` handler (line 153): unconditionally sets the
status to `disconnected`.  (`part_001` lines 52-55 are identical.) -/
def appOnConnectError (_st : ConnStatus) : ConnStatus :=
  .disconnected

/-- Mutable fields of the `WebSocketService` class (part_015, constructor
lines 313-320) that the reconnect logic reads and writes. -/
structure WSState where
  isConnected : Bool
  reconnectAttempts : Nat
  maxReconnectAttempts : Nat
  reconnectDelay : Nat
  deriving DecidableEq, Repr

/-- `WebSocketService.attemptReconnect` (part_015 lines 403-414): if the
attempt counter is below the cap it is incremented and a reconnect is
scheduled after `reconnectDelay * reconnectAttempts` (the post-increment
value); otherwise nothing happens.  Returns the new state together with the
scheduled delay, `none` when no attempt was scheduled. -/
def attemptReconnect (s : WSState) : WSState × Option Nat :=
  if s.reconnectAttempts < s.maxReconnectAttempts then
    let n := s.reconnectAttempts + 1
    ({ s with reconnectAttempts := n }, some (s.reconnectDelay * n))
  else
    (s, none)

/-- The `disconnect` socket handler installed by `WebSocketService.connect`
(part_015 lines 353-361): clears `isConnected`, and calls `attemptReconnect`
exactly when the reason differs from `io client disconnect`.  The Boolean
records whether `attemptReconnect` was invoked. -/
def wsOnDisconnect (s : WSState) (reason : String) : WSState × Bool :=
  let s1 := { s with isConnected := false }
  if reason = "io client disconnect" then
    (s1, false)
  else
    ((attemptReconnect s1).1, true)

/-- `ApiService`'s module-level `eventListeners` map (api.js line 28): event
name to the JS `Set` of callbacks, which iterates in insertion order.
Handlers are identified by `Nat` ids; the association list has at most one
entry per event name by construction of `apiAdd`. -/
abbrev ApiRegistry := List (String × List Nat)

/-- `ApiService.addEventListener` (api.js lines 142-147): create the entry on
first use, then `Set.add` — appending only when the callback is not already
present. -/
def apiAdd : ApiRegistry → String → Nat → ApiRegistry
  | [], e, h => [(e, [h])]
  | (e', hs) :: t, e, h =>
    if e' = e then
      (e', if h ∈ hs then hs else hs ++ [h]) :: t
    else
      (e', hs) :: apiAdd t e h

/-- `ApiService.removeEventListener` (api.js lines 152-156): `Set.delete` on
the event's set when it exists. -/
def apiRemove : ApiRegistry → String → Nat → ApiRegistry
  | [], _, _ => []
  | (e', hs) :: t, e, h =>
    if e' = e then
      (e', hs.filter (fun x => x ≠ h)) :: t
    else
      (e', hs) :: apiRemove t e h

/-- `eventListeners.get(event)` followed by the JS `?.` guard: the callbacks
registered for `e`, empty when the event has no entry. -/
def apiHandlers (reg : ApiRegistry) (e : String) : List Nat :=
  match reg.find? (fun p => p.1 = e) with
  | some p => p.2
  | none => []

/-- `WebSocketService.listeners` (part_015 line 319): event name to a plain
JS array of callbacks. -/
abbrev WsRegistry := List (String × List Nat)

/-- `WebSocketService.on` (part_015 lines 463-468): `Array.push`, appending
unconditionally (list semantics — duplicates are kept). -/
def wsOn : WsRegistry → String → Nat → WsRegistry
  | [], e, h => [(e, [h])]
  | (e', hs) :: t, e, h =>
    if e' = e then
      (e', hs ++ [h]) :: t
    else
      (e', hs) :: wsOn t e h

/-- `this.listeners.get(event)` for `WebSocketService`. -/
def wsHandlers (reg : WsRegistry) (e : String) : List Nat :=
  match reg.find? (fun p => p.1 = e) with
  | some p => p.2
  | none => []

/-- Outcome of invoking one callback: it either returns normally or throws.
The dynamic behaviour is supplied as the `throws` parameter. -/
def execHandler (throws : Nat → Bool) (h : Nat) : Bool := throws h

/-- The dispatch loop of `WebSocketService.emit` (part_015 lines 480-490):
each callback runs inside its own try/catch, so a throwing callback is
caught and logged and the loop continues.  Returns the ids invoked in order,
the ids whose exceptions were caught and logged, and whether an exception
escaped the loop. -/
def runForEachCatch (throws : Nat → Bool) :
    List Nat → List Nat × List Nat × Bool
  | [] => ([], [], false)
  | h :: t =>
    let rest := runForEachCatch throws t
    if execHandler throws h then
      (h :: rest.1, h :: rest.2.1, rest.2.2)
    else
      (h :: rest.1, rest.2.1, rest.2.2)

/-- The dispatch loop of the message relays in `ApiService.initializeSocket`
(api.js lines 90-116): a bare `forEach(callback => callback(data))` with no
try/catch, so the first throwing callback aborts the iteration and the
exception propagates to the caller. -/
def runForEachNoCatch (throws : Nat → Bool) : List Nat → List Nat × Bool
  | [] => ([], false)
  | h :: t =>
    if execHandler throws h then
      ([h], true)
    else
      let rest := runForEachNoCatch throws t
      (h :: rest.1, rest.2)

/-- `WebSocketService.emit` (part_015 lines 480-490) over the registry. -/
def wsEmit (reg : WsRegistry) (e : String) (throws : Nat → Bool) :
    List Nat × List Nat × Bool :=
  runForEachCatch throws (wsHandlers reg e)

/-- The message-relay dispatch of `ApiService.initializeSocket`
(api.js lines 90-116) over the registry. -/
def apiRelayEmit (reg : ApiRegistry) (e : String) (throws : Nat → Bool) :
    List Nat × Bool :=
  runForEachNoCatch throws (apiHandlers reg e)

/-- A callback that never throws, for stating pure invocation counts. -/
def noThrow : Nat → Bool := fun _ => false

/-- Every callback list of a registry reachable through the `ApiService`
operations is duplicate-free (JS `Set` semantics). -/
def ApiWF (reg : ApiRegistry) : Prop :=
  ∀ p ∈ reg, List.Nodup p.2

/-- The delays scheduled by `n` successive invocations of
`WebSocketService.attemptReconnect`, in order (each invocation mirrors one
`disconnect`-triggered call; calls past the attempt cap schedule nothing). -/
def collectDelays : WSState → Nat → List Nat
  | _, 0 => []
  | s, n + 1 =>
    match attemptReconnect s with
    | (s', some d) => d :: collectDelays s' n
    | (s', none) => collectDelays s' n

/-- Fields of the module-level socket that `ApiService.sendSocketMessage`
reads: whether `socket` is non-null and whether `socket.connected` holds. -/
structure ApiSocketState where
  socketExists : Bool
  socketConnected : Bool
  deriving DecidableEq, Repr

/-- Settlement of the promise returned by `sendSocketMessage`. -/
inductive SendOutcome
  | resolvedFailure
  | emittedAwaitAck
  deriving DecidableEq, Repr

/-- `ApiService.sendSocketMessage` in frontend api.js (lines 161-171): when
the socket is null or not connected it resolves `{success: false, error:
'Socket not connected'}` without throwing; otherwise it emits and awaits the
acknowledgement. -/
def sendSocketMessage (s : ApiSocketState) : SendOutcome :=
  if !s.socketExists || !s.socketConnected then .resolvedFailure
  else .emittedAwaitAck

/-- The `ApiService.sendSocketMessage` variant in part_015 (lines 112-123):
when the socket is null or not connected it REJECTS the promise with
`Error('Socket not connected')`; otherwise it emits and awaits the
acknowledgement.  The rejection is the `Except.error` branch. -/
def sendSocketMessageP15 (s : ApiSocketState) : Except String Unit :=
  if !s.socketExists || !s.socketConnected then
    .error "Socket not connected"
  else
    .ok ()

/-- `WebSocketService.sendMessage` (part_015 lines 417-425): emits and
returns `true` when connected with a live socket; otherwise warns and
returns `false` — the message is dropped, nothing is queued. -/
def wsSendMessage (s : WSState) (socketExists : Bool) : Bool :=
  if s.isConnected && socketExists then true else false

/-- The pieces of module state `ApiService.initializeSocket` /
`WebSocketService.connect` touch: the current socket reference (an id) and a
running count of `io(...)` socket constructions, so that opening a duplicate
socket is observable. -/
structure ConnState where
  socket : Option Nat
  opened : Nat
  deriving DecidableEq, Repr

/-- `ApiService.initializeSocket` (api.js lines 37-49): unconditionally
constructs a fresh socket via `io(...)` and overwrites the module-level
`socket` reference — there is no already-connecting/already-connected
guard. -/
def initializeSocket (s : ConnState) : ConnState :=
  { socket := some s.opened, opened := s.opened + 1 }

/-- `WebSocketService.connect` (part_015 lines 322-332): likewise assigns
`this.socket = io(url, ...)` unconditionally on every call. -/
def wsConnect (s : ConnState) : ConnState :=
  { socket := some s.opened, opened := s.opened + 1 }

/-- Raw transport occurrences delivered to the socket handlers installed by
`WebSocketService.connect`: the `connect`, `connect_error` and `disconnect`
socket events. -/
inductive WSEvent
  | connectOk
  | connectErr
  | transportDisconnect (reason : String)
  deriving DecidableEq, Repr

/-- Observable effects the `WebSocketService` handlers produce: resolving
the connect promise, rejecting it with `Max reconnection attempts reached`,
scheduling a reconnect timer, and — in the spec's vocabulary but nowhere in
the code — emitting a ReconnectFailed lifecycle event. -/
inductive WSOut
  | resolveOk
  | rejectMaxAttempts
  | scheduleReconnect (delay : Nat)
  | reconnectFailedEvent
  deriving DecidableEq, Repr

/-- One transport occurrence processed by the handlers of
`WebSocketService.connect` (part_015): `connect` (lines 335-340) sets
`isConnected`, resets the attempt counter and resolves; `connect_error`
(lines 343-350) clears `isConnected` and rejects once the attempt counter
has reached the cap; `disconnect` (lines 353-361) clears `isConnected` and
calls `attemptReconnect` unless the reason is `io client disconnect`. -/
def wsStep (s : WSState) : WSEvent → WSState × List WSOut
  | .connectOk =>
    ({ s with isConnected := true, reconnectAttempts := 0 }, [.resolveOk])
  | .connectErr =>
    let s1 := { s with isConnected := false }
    if s1.maxReconnectAttempts ≤ s1.reconnectAttempts then
      (s1, [.rejectMaxAttempts])
    else
      (s1, [])
  | .transportDisconnect reason =>
    let s1 := { s with isConnected := false }
    if reason = "io client disconnect" then
      (s1, [])
    else
      match attemptReconnect s1 with
      | (s2, some d) => (s2, [.scheduleReconnect d])
      | (s2, none) => (s2, [])

/-- Processing a whole sequence of transport occurrences, collecting the
produced effects in order. -/
def wsRun : WSState → List WSEvent → WSState × List WSOut
  | s, [] => (s, [])
  | s, e :: es =>
    let p := wsStep s e
    let q := wsRun p.1 es
    (q.1, p.2 ++ q.2)

/-- Whether an effect is the scheduling of a reconnect attempt. -/
def isSchedule : WSOut → Bool
  | .scheduleReconnect _ => true
  | _ => false

/-- Module state of `ApiService` relevant to teardown: the socket reference
and the listener registry. -/
structure ApiServiceState where
  socket : Option Nat
  eventListeners : ApiRegistry
  deriving DecidableEq, Repr

/-- `ApiService.disconnectSocket` (api.js lines 131-137): when a socket
exists it is disconnected and the reference nulled, then the listener map is
cleared unconditionally. -/
def disconnectSocket (s : ApiServiceState) : ApiServiceState :=
  let sock : Option Nat :=
    match s.socket with
    | some _ => none
    | none => s.socket
  { socket := sock, eventListeners := [] }

/-- The handler list of the raw socket in part_014 (`socketService.js`),
keyed by event name; one socket-level registration per entry, `Nat`
identifying the attached callback. -/
abbrev SockHandlers := List (String × Nat)

/-- `socket.off(event)` with no handler argument: removes every handler
attached for that event. -/
def socketOff (hs : SockHandlers) (e : String) : SockHandlers :=
  hs.filter (fun p => p.1 ≠ e)

/-- `socket.on(event, handler)`: appends one more handler for the event. -/
def socketOnEv (hs : SockHandlers) (e : String) (h : Nat) : SockHandlers :=
  hs ++ [(e, h)]

/-- `registerJarvisListener` (part_014 lines 40-46): first
`socket.off("jarvis_response")` removes any previously attached handlers,
then `socket.on("jarvis_response", ...)` attaches a wrapper invoking the
given callback. -/
def registerJarvisListener (cb : Nat) (hs : SockHandlers) : SockHandlers :=
  socketOnEv (socketOff hs "jarvis_response") "jarvis_response" cb

/-- The callbacks the socket invokes, in attachment order, when an event
named `e` arrives. -/
def socketDispatch (hs : SockHandlers) (e : String) : List Nat :=
  (hs.filter (fun p => p.1 = e)).map (fun p => p.2)

/-- Successive calls to `registerJarvisListener` with the callbacks `cbs`,
in order. -/
def registerAll (cbs : List Nat) (hs : SockHandlers) : SockHandlers :=
  cbs.foldl (fun acc cb => registerJarvisListener cb acc) hs

/-- A transport episode in which the connection never succeeds: each
scheduled reconnect leads to another unexpected disconnect or connect
error, and no `connect` event ever fires. -/
def neverSucceeds : List WSEvent :=
  [WSEvent.transportDisconnect "transport close", WSEvent.connectErr,
   WSEvent.transportDisconnect "transport close", WSEvent.connectErr,
   WSEvent.transportDisconnect "transport close", WSEvent.connectErr,
   WSEvent.transportDisconnect "transport close", WSEvent.connectErr]

end Assistant

namespace Assistant

/-- C1: For every disconnect lifecycle event received while the connection
status is `connected`: if the reason is `io client disconnect` the resulting
status is `disconnected` and `WebSocketService` does not call
`attemptReconnect`; for any other reason the resulting status is
`reconnecting` and `attemptReconnect` is invoked. -/
theorem disconnect_reason_routing (st : ConnStatus) (s : WSState)
    (reason : String) (hst : st = ConnStatus.connected) :
    (reason = "io client disconnect" →
      appOnDisconnect st reason = ConnStatus.disconnected ∧
      (wsOnDisconnect s reason).2 = false) ∧
    (reason ≠ "io client disconnect" →
      appOnDisconnect st reason = ConnStatus.reconnecting ∧
      (wsOnDisconnect s reason).2 = true) := by
  subst hst
  constructor
  · intro h
    simp [appOnDisconnect, wsOnDisconnect, h]
  · intro h
    simp [appOnDisconnect, wsOnDisconnect, h]

/-- Witness for `disconnect_reason_routing` at concrete inputs: the
client-initiated reason yields `disconnected` without a reconnect call, and
the reason `transport close` yields `reconnecting` with a reconnect call. -/
theorem disconnect_reason_routing_witness :
    (appOnDisconnect ConnStatus.connected "io client disconnect" =
        ConnStatus.disconnected ∧
      (wsOnDisconnect ⟨true, 0, 5, 1000⟩ "io client disconnect").2 = false) ∧
    (appOnDisconnect ConnStatus.connected "transport close" =
        ConnStatus.reconnecting ∧
      (wsOnDisconnect ⟨true, 0, 5, 1000⟩ "transport close").2 = true) :=
  ⟨(disconnect_reason_routing ConnStatus.connected ⟨true, 0, 5, 1000⟩
      "io client disconnect" rfl).1 rfl,
   (disconnect_reason_routing ConnStatus.connected ⟨true, 0, 5, 1000⟩
      "transport close" rfl).2 (by decide)⟩

/-- C7 counterexample: a ConnectError arriving while the status is
`connecting` results in status `disconnected`, not `error`, in both App
variants (App.js line 153 and part_001 lines 52-55). -/
theorem connect_error_not_error :
    appOnConnectError ConnStatus.connecting = ConnStatus.disconnected ∧
    appOnConnectError ConnStatus.connecting ≠ ConnStatus.error := by
  decide

/-- C7 amended: when a ConnectError lifecycle event arrives (in particular
while the status is `connecting`), the resulting status is `disconnected`. -/
theorem connect_error_sets_disconnected (st : ConnStatus) :
    appOnConnectError st = ConnStatus.disconnected := rfl

/-- Handler lookup on a cons cell: the head entry answers when its name
matches, otherwise the lookup continues in the tail. -/
theorem apiHandlers_cons (e' : String) (hs : List Nat)
    (t : ApiRegistry) (e : String) :
    apiHandlers ((e', hs) :: t) e = if e' = e then hs else apiHandlers t e := by
  by_cases he : e' = e <;> simp [apiHandlers, List.find?, he]

/-- The handlers registered for `e` after `apiAdd reg e h`: the existing set
when `h` was already present, otherwise the set with `h` appended. -/
theorem apiHandlers_apiAdd_self (reg : ApiRegistry) (e : String) (h : Nat) :
    apiHandlers (apiAdd reg e h) e =
      (if h ∈ apiHandlers reg e then apiHandlers reg e
       else apiHandlers reg e ++ [h]) := by
  induction reg with
  | nil => simp [apiAdd, apiHandlers]
  | cons p t ih =>
    obtain ⟨e', hs⟩ := p
    by_cases he : e' = e
    · subst he
      simp [apiAdd, apiHandlers_cons]
    · simp only [apiAdd, he, if_false, apiHandlers_cons, ih]

/-- Handler lookup on a cons cell for the `WebSocketService` registry. -/
theorem wsHandlers_cons (e' : String) (hs : List Nat)
    (t : WsRegistry) (e : String) :
    wsHandlers ((e', hs) :: t) e = if e' = e then hs else wsHandlers t e := by
  by_cases he : e' = e <;> simp [wsHandlers, List.find?, he]

/-- The handlers registered for `e` after `wsOn reg e h`: always appended
(list semantics). -/
theorem wsHandlers_wsOn_self (reg : WsRegistry) (e : String) (h : Nat) :
    wsHandlers (wsOn reg e h) e = wsHandlers reg e ++ [h] := by
  induction reg with
  | nil => simp [wsOn, wsHandlers]
  | cons p t ih =>
    obtain ⟨e', hs⟩ := p
    by_cases he : e' = e
    · subst he
      simp [wsOn, wsHandlers_cons]
    · simp only [wsOn, he, if_false, wsHandlers_cons, ih]

/-- In a registry whose sets are duplicate-free, each event's callback list
is duplicate-free. -/
theorem apiHandlers_nodup (reg : ApiRegistry) (e : String) (hwf : ApiWF reg) :
    (apiHandlers reg e).Nodup := by
  unfold apiHandlers
  cases hfind : reg.find? (fun p => p.1 = e) with
  | none => simp
  | some p => exact hwf p (List.mem_of_find?_eq_some hfind)

/-- A dispatch loop with per-callback try/catch invokes every callback in
order, logs exactly the throwing ones, and lets no exception escape. -/
theorem runForEachCatch_spec (throws : Nat → Bool) (l : List Nat) :
    runForEachCatch throws l =
      (l, l.filter (fun x => throws x), false) := by
  induction l with
  | nil => rfl
  | cons h t ih =>
    by_cases hth : throws h
    · simp [runForEachCatch, execHandler, ih, hth, List.filter_cons]
    · simp [runForEachCatch, execHandler, ih, hth, List.filter_cons]

/-- A bare `forEach` dispatch loop propagates an exception exactly when some
callback in the list throws. -/
theorem runForEachNoCatch_propagates (throws : Nat → Bool) (l : List Nat) :
    (runForEachNoCatch throws l).2 = l.any throws := by
  induction l with
  | nil => rfl
  | cons h t ih =>
    by_cases hth : throws h
    · simp [runForEachNoCatch, execHandler, hth]
    · simp [runForEachNoCatch, execHandler, hth, ih]

/-- Without throwing callbacks, a bare `forEach` dispatch invokes the whole
list. -/
theorem runForEachNoCatch_noThrow (l : List Nat) :
    runForEachNoCatch noThrow l = (l, false) := by
  induction l with
  | nil => rfl
  | cons h t ih => simp [runForEachNoCatch, execHandler, noThrow, ih]

/-- C2 counterexample: with `WebSocketService.on` (part_015 lines 463-468),
registering the callback `7` twice for `chat_response` and emitting invokes
it twice, not once — registration is a list push, not a set insertion. -/
theorem ws_on_twice_invokes_twice :
    ((wsEmit (wsOn (wsOn [] "chat_response" 7) "chat_response" 7)
        "chat_response" noThrow).1).count 7 = 2 ∧
    ¬ ((wsEmit (wsOn (wsOn [] "chat_response" 7) "chat_response" 7)
        "chat_response" noThrow).1).count 7 = 1 := by
  decide

/-- C2 amended: `ApiService.addEventListener` has set semantics — in any
registry with duplicate-free sets, registering `(e, h)` twice and emitting
invokes `h` exactly once; `WebSocketService.on` has list semantics —
registering `(e, h)` twice when `h` was not yet registered makes emit invoke
`h` exactly twice. -/
theorem add_listener_dedup (reg : ApiRegistry) (wreg : WsRegistry)
    (e : String) (h : Nat) (hwf : ApiWF reg)
    (hmem : h ∉ wsHandlers wreg e) :
    ((apiRelayEmit (apiAdd (apiAdd reg e h) e h) e noThrow).1).count h = 1 ∧
    ((wsEmit (wsOn (wsOn wreg e h) e h) e noThrow).1).count h = 2 := by
  constructor
  · have h1 := apiHandlers_apiAdd_self reg e h
    have h2 := apiHandlers_apiAdd_self (apiAdd reg e h) e h
    have hnd : (apiHandlers (apiAdd reg e h) e).Nodup := by
      rw [h1]
      by_cases hm : h ∈ apiHandlers reg e
      · simpa [hm] using apiHandlers_nodup reg e hwf
      · simp only [hm, if_false]
        simp [List.nodup_append, apiHandlers_nodup reg e hwf, hm]
    have hmem2 : h ∈ apiHandlers (apiAdd reg e h) e := by
      rw [h1]
      by_cases hm : h ∈ apiHandlers reg e <;> simp [hm]
    unfold apiRelayEmit
    rw [runForEachNoCatch_noThrow]
    rw [h2, if_pos hmem2]
    exact List.count_eq_one_of_mem hnd hmem2
  · unfold wsEmit
    rw [runForEachCatch_spec]
    rw [wsHandlers_wsOn_self, wsHandlers_wsOn_self]
    simp [List.count_append, List.count_eq_zero_of_not_mem hmem]

/-- Witness for `add_listener_dedup` at concrete inputs: empty registries. -/
theorem add_listener_dedup_witness :
    ((apiRelayEmit (apiAdd (apiAdd [] "message" 4) "message" 4)
        "message" noThrow).1).count 4 = 1 ∧
    ((wsEmit (wsOn (wsOn [] "message" 4) "message" 4)
        "message" noThrow).1).count 4 = 2 :=
  add_listener_dedup [] [] "message" 4 (by intro p hp; cases hp) (by decide)

/-- C3 counterexample: in the message relay of `ApiService.initializeSocket`
(api.js lines 90-116) there is no per-callback try/catch — with callbacks
`1` and `2` registered for `message` and callback `1` throwing, only `1` is
invoked, the later-registered `2` is skipped, and the exception propagates
out of the dispatch. -/
theorem api_relay_throw_aborts :
    apiRelayEmit (apiAdd (apiAdd [] "message" 1) "message" 2) "message"
        (fun x => x == 1) = ([1], true) ∧
    2 ∉ (apiRelayEmit (apiAdd (apiAdd [] "message" 1) "message" 2) "message"
        (fun x => x == 1)).1 := by
  decide

/-- C3 amended: `WebSocketService.emit` (part_015 lines 480-490) catches
per-callback — every registered handler is invoked in order, throwing ones
are caught and logged, and no exception reaches the caller of emit; the bare
message relays of `ApiService.initializeSocket` instead propagate an
exception exactly when some registered handler throws. -/
theorem emit_catches_per_handler (reg : WsRegistry) (areg : ApiRegistry)
    (e : String) (throws : Nat → Bool) :
    (wsEmit reg e throws).1 = wsHandlers reg e ∧
    (wsEmit reg e throws).2.1 =
      (wsHandlers reg e).filter (fun x => throws x) ∧
    (wsEmit reg e throws).2.2 = false ∧
    (apiRelayEmit areg e throws).2 = (apiHandlers areg e).any throws := by
  unfold wsEmit apiRelayEmit
  rw [runForEachCatch_spec, runForEachNoCatch_propagates]
  exact ⟨rfl, rfl, rfl, rfl⟩

/-- C4 counterexample: with `reconnectDelay = 100` and
`maxReconnectAttempts = 5`, the delays scheduled before the five attempts
are `100, 200, 300, 400, 500` (linear `reconnectDelay * attemptNumber`,
part_015 line 412), not the exponential capped `100, 200, 400, 800, 800`
the claim states. -/
theorem backoff_not_exponential :
    collectDelays ⟨false, 0, 5, 100⟩ 5 = [100, 200, 300, 400, 500] ∧
    collectDelays ⟨false, 0, 5, 100⟩ 5 ≠ [100, 200, 400, 800, 800] := by
  decide

/-- C4 amended: the reconnection delays grow linearly — the i-th scheduled
delay (counting from the current attempt counter) is
`reconnectDelay * (reconnectAttempts + i + 1)`, with no maximum-delay cap,
and at most `maxReconnectAttempts - reconnectAttempts` further delays are
ever scheduled. -/
theorem backoff_delays_linear (s : WSState) (n : Nat)
    (hle : s.reconnectAttempts ≤ s.maxReconnectAttempts) :
    collectDelays s n =
      (List.range (min n (s.maxReconnectAttempts - s.reconnectAttempts))).map
        (fun i => s.reconnectDelay * (s.reconnectAttempts + i + 1)) := by
  induction n generalizing s with
  | zero => simp [collectDelays]
  | succ n ih =>
    by_cases hlt : s.reconnectAttempts < s.maxReconnectAttempts
    · have hstep :
          attemptReconnect s =
            ({ s with reconnectAttempts := s.reconnectAttempts + 1 },
             some (s.reconnectDelay * (s.reconnectAttempts + 1))) := by
        simp [attemptReconnect, hlt]
      have hrec := ih { s with reconnectAttempts := s.reconnectAttempts + 1 }
        (by simpa using hlt)
      have hmin : min (n + 1)
            (s.maxReconnectAttempts - s.reconnectAttempts) =
          min n (s.maxReconnectAttempts - (s.reconnectAttempts + 1)) + 1 := by
        omega
      rw [collectDelays, hstep]
      dsimp only
      rw [hrec, hmin, List.range_succ_eq_map]
      simp only [List.map_cons, List.map_map]
      congr 1
      apply List.map_congr_left
      intro i _
      simp only [Function.comp_apply, Nat.succ_eq_add_one]
      ring
    · have heq : s.reconnectAttempts = s.maxReconnectAttempts := by omega
      have hstep : attemptReconnect s = (s, none) := by
        simp [attemptReconnect, hlt]
      rw [collectDelays, hstep]
      simp only
      rw [ih s hle]
      simp [heq]

/-- Witness for `backoff_delays_linear`: the fresh service state with base
delay 100 and cap 5, over five scheduling calls. -/
theorem backoff_delays_linear_witness :
    collectDelays ⟨false, 0, 5, 100⟩ 5 =
      (List.range (min 5 (5 - 0))).map (fun i => 100 * (0 + i + 1)) :=
  backoff_delays_linear ⟨false, 0, 5, 100⟩ 5 (by decide)

/-- C5 counterexample: the part_015 `ApiService.sendSocketMessage` variant
(lines 112-123), called with no connected socket, rejects the returned
promise with `Error('Socket not connected')` — an error raised to the
caller, not a queued/dropped outcome (no PendingAction queue exists in the
code). -/
theorem send_not_connected_rejects :
    sendSocketMessageP15 ⟨false, false⟩ =
      Except.error "Socket not connected" := rfl

/-- C5 amended: a send attempt while the connection is not established never
queues anything; the frontend `ApiService.sendSocketMessage` resolves a
failure outcome without throwing, `WebSocketService.sendMessage` returns
`false` (the message is dropped), and the part_015 `ApiService` variant
rejects its promise with `Socket not connected`. -/
theorem send_not_connected_outcomes (a : ApiSocketState) (w : WSState)
    (sock : Bool) (ha : a.socketConnected = false)
    (hw : w.isConnected = false) :
    sendSocketMessage a = SendOutcome.resolvedFailure ∧
    wsSendMessage w sock = false ∧
    sendSocketMessageP15 a = Except.error "Socket not connected" := by
  refine ⟨?_, ?_, ?_⟩
  · simp [sendSocketMessage, ha]
  · simp [wsSendMessage, hw]
  · simp [sendSocketMessageP15, ha]

/-- Witness for `send_not_connected_outcomes`: a null socket and a
disconnected service. -/
theorem send_not_connected_outcomes_witness :
    sendSocketMessage ⟨false, false⟩ = SendOutcome.resolvedFailure ∧
    wsSendMessage ⟨false, 0, 5, 1000⟩ true = false ∧
    sendSocketMessageP15 ⟨false, false⟩ =
      Except.error "Socket not connected" :=
  send_not_connected_outcomes ⟨false, false⟩ ⟨false, 0, 5, 1000⟩ true rfl rfl

/-- C6 counterexample: calling `initializeSocket` again on a state that
already holds a live socket constructs a second socket (the construction
count goes from 1 to 2) and replaces the reference instead of returning the
existing connection's state. -/
theorem initialize_socket_not_idempotent :
    (initializeSocket (initializeSocket ⟨none, 0⟩)).opened = 2 ∧
    (initializeSocket (initializeSocket ⟨none, 0⟩)).socket ≠
      (initializeSocket ⟨none, 0⟩).socket := by
  decide

/-- C6 amended: neither `ApiService.initializeSocket` nor
`WebSocketService.connect` is idempotent — every call, regardless of any
existing connecting or connected socket, constructs one new socket and
overwrites the stored reference with it. -/
theorem connect_always_opens_new_socket (s : ConnState) :
    (initializeSocket s).opened = s.opened + 1 ∧
    (initializeSocket s).socket = some s.opened ∧
    (wsConnect s).opened = s.opened + 1 ∧
    (wsConnect s).socket = some s.opened := by
  exact ⟨rfl, rfl, rfl, rfl⟩

/-- A single handler step never changes the configured attempt cap. -/
theorem wsStep_max_eq (s : WSState) (e : WSEvent) :
    (wsStep s e).1.maxReconnectAttempts = s.maxReconnectAttempts := by
  cases e with
  | connectOk => rfl
  | connectErr =>
    by_cases hc : s.maxReconnectAttempts ≤ s.reconnectAttempts <;>
      simp [wsStep, hc]
  | transportDisconnect reason =>
    by_cases hr : reason = "io client disconnect"
    · simp [wsStep, hr]
    · simp only [wsStep, hr, if_false]
      by_cases hlt : s.reconnectAttempts < s.maxReconnectAttempts <;>
        simp [attemptReconnect, hlt]

/-- A single handler step keeps the attempt counter within the cap. -/
theorem wsStep_attempts_le (s : WSState) (e : WSEvent)
    (h : s.reconnectAttempts ≤ s.maxReconnectAttempts) :
    (wsStep s e).1.reconnectAttempts ≤ s.maxReconnectAttempts := by
  cases e with
  | connectOk => simp [wsStep]
  | connectErr =>
    by_cases hc : s.maxReconnectAttempts ≤ s.reconnectAttempts <;>
      simp [wsStep, hc, h]
  | transportDisconnect reason =>
    by_cases hr : reason = "io client disconnect"
    · simp [wsStep, hr, h]
    · simp only [wsStep, hr, if_false]
      by_cases hlt : s.reconnectAttempts < s.maxReconnectAttempts
      · simp [attemptReconnect, hlt]
        omega
      · simp [attemptReconnect, hlt, h]

/-- When the processed occurrence is not a successful `connect`, the attempt
counter advances by exactly the number of reconnects scheduled. -/
theorem wsStep_schedules (s : WSState) (e : WSEvent)
    (hne : e ≠ WSEvent.connectOk) :
    (wsStep s e).1.reconnectAttempts =
      s.reconnectAttempts + (wsStep s e).2.countP isSchedule := by
  cases e with
  | connectOk => exact absurd rfl hne
  | connectErr =>
    by_cases hc : s.maxReconnectAttempts ≤ s.reconnectAttempts <;>
      simp [wsStep, hc, isSchedule]
  | transportDisconnect reason =>
    by_cases hr : reason = "io client disconnect"
    · simp [wsStep, hr]
    · simp only [wsStep, hr, if_false]
      by_cases hlt : s.reconnectAttempts < s.maxReconnectAttempts <;>
        simp [attemptReconnect, hlt, isSchedule]

/-- No handler of `WebSocketService.connect` ever produces a ReconnectFailed
lifecycle event. -/
theorem wsStep_no_failed (s : WSState) (e : WSEvent) :
    WSOut.reconnectFailedEvent ∉ (wsStep s e).2 := by
  cases e with
  | connectOk => simp [wsStep]
  | connectErr =>
    by_cases hc : s.maxReconnectAttempts ≤ s.reconnectAttempts <;>
      simp [wsStep, hc]
  | transportDisconnect reason =>
    by_cases hr : reason = "io client disconnect"
    · simp [wsStep, hr]
    · simp only [wsStep, hr, if_false]
      by_cases hlt : s.reconnectAttempts < s.maxReconnectAttempts <;>
        simp [attemptReconnect, hlt]

/-- Processing any occurrence sequence preserves the configured cap. -/
theorem wsRun_max_eq (es : List WSEvent) (s : WSState) :
    (wsRun s es).1.maxReconnectAttempts = s.maxReconnectAttempts := by
  induction es generalizing s with
  | nil => rfl
  | cons e es ih =>
    show (wsRun (wsStep s e).1 es).1.maxReconnectAttempts = _
    rw [ih, wsStep_max_eq]

/-- The attempt counter stays within the cap along any occurrence
sequence. -/
theorem wsRun_attempts_le (es : List WSEvent) (s : WSState)
    (h : s.reconnectAttempts ≤ s.maxReconnectAttempts) :
    (wsRun s es).1.reconnectAttempts ≤ s.maxReconnectAttempts := by
  induction es generalizing s with
  | nil => exact h
  | cons e es ih =>
    show (wsRun (wsStep s e).1 es).1.reconnectAttempts ≤ _
    have h1 : (wsStep s e).1.reconnectAttempts ≤
        (wsStep s e).1.maxReconnectAttempts := by
      rw [wsStep_max_eq]
      exact wsStep_attempts_le s e h
    have h2 := ih (wsStep s e).1 h1
    rw [wsStep_max_eq] at h2
    exact h2

/-- Along a sequence with no successful `connect`, the attempt counter
advances by exactly the number of reconnects scheduled. -/
theorem wsRun_schedules (es : List WSEvent) (s : WSState)
    (hok : ∀ e ∈ es, e ≠ WSEvent.connectOk) :
    (wsRun s es).1.reconnectAttempts =
      s.reconnectAttempts + (wsRun s es).2.countP isSchedule := by
  induction es generalizing s with
  | nil => rfl
  | cons e es ih =>
    have hse : e ≠ WSEvent.connectOk := hok e (List.mem_cons_self e es)
    have hrest : ∀ x ∈ es, x ≠ WSEvent.connectOk :=
      fun x hx => hok x (List.mem_cons_of_mem e hx)
    show (wsRun (wsStep s e).1 es).1.reconnectAttempts =
      s.reconnectAttempts +
        ((wsStep s e).2 ++ (wsRun (wsStep s e).1 es).2).countP isSchedule
    rw [List.countP_append, ih (wsStep s e).1 hrest,
      wsStep_schedules s e hse]
    omega

/-- No occurrence sequence ever produces a ReconnectFailed lifecycle
event. -/
theorem wsRun_no_failed (es : List WSEvent) (s : WSState) :
    WSOut.reconnectFailedEvent ∉ (wsRun s es).2 := by
  induction es generalizing s with
  | nil => simp [wsRun]
  | cons e es ih =>
    show WSOut.reconnectFailedEvent ∉
      (wsStep s e).2 ++ (wsRun (wsStep s e).1 es).2
    rw [List.mem_append]
    rintro (hmem | hmem)
    · exact wsStep_no_failed s e hmem
    · exact ih (wsStep s e).1 hmem

/-- C8 counterexample: with `maxReconnectAttempts = 3` and a connection that
never succeeds (the `neverSucceeds` episode), exactly 3 reconnect attempts
are scheduled but no ReconnectFailed event is ever emitted — its count is 0,
not the claimed exactly-once. -/
theorem reconnect_failed_never_emitted :
    (wsRun ⟨true, 0, 3, 1000⟩ neverSucceeds).1.reconnectAttempts = 3 ∧
    (wsRun ⟨true, 0, 3, 1000⟩ neverSucceeds).2.count
        WSOut.reconnectFailedEvent = 0 ∧
    ¬ ((wsRun ⟨true, 0, 3, 1000⟩ neverSucceeds).2.count
        WSOut.reconnectFailedEvent = 1) := by
  decide

/-- C8 amended: with `maxReconnectAttempts = 3`, a connection that never
succeeds never makes strictly more than 3 reconnect attempts, but the code
emits no ReconnectFailed lifecycle event at all (and has no `error` status);
exhaustion is observable only as the promise rejection produced by
`connect_error` occurrences after the counter reaches the cap. -/
theorem reconnect_attempt_cap (es : List WSEvent)
    (hok : ∀ e ∈ es, e ≠ WSEvent.connectOk) :
    (wsRun ⟨true, 0, 3, 1000⟩ es).1.reconnectAttempts ≤ 3 ∧
    (wsRun ⟨true, 0, 3, 1000⟩ es).2.countP isSchedule ≤ 3 ∧
    WSOut.reconnectFailedEvent ∉ (wsRun ⟨true, 0, 3, 1000⟩ es).2 := by
  have hle := wsRun_attempts_le es ⟨true, 0, 3, 1000⟩ (by decide)
  have hsch := wsRun_schedules es ⟨true, 0, 3, 1000⟩ hok
  dsimp only at hle hsch
  exact ⟨hle, by omega, wsRun_no_failed es ⟨true, 0, 3, 1000⟩⟩

/-- Witness for `reconnect_attempt_cap` on the `neverSucceeds` episode. -/
theorem reconnect_attempt_cap_witness :
    (wsRun ⟨true, 0, 3, 1000⟩ neverSucceeds).1.reconnectAttempts ≤ 3 ∧
    (wsRun ⟨true, 0, 3, 1000⟩ neverSucceeds).2.countP isSchedule ≤ 3 ∧
    WSOut.reconnectFailedEvent ∉ (wsRun ⟨true, 0, 3, 1000⟩
      neverSucceeds).2 :=
  reconnect_attempt_cap neverSucceeds (by decide)

/-- C9: after `ApiService.disconnectSocket` the listener registry is empty
and the socket reference is null, so dispatching any event through the
message relay invokes no handler. -/
theorem disconnect_clears_listeners (s : ApiServiceState) :
    (disconnectSocket s).eventListeners = [] ∧
    (disconnectSocket s).socket = none ∧
    ∀ (e : String) (throws : Nat → Bool),
      apiRelayEmit (disconnectSocket s).eventListeners e throws =
        ([], false) := by
  refine ⟨rfl, ?_, ?_⟩
  · cases h : s.socket <;> simp [disconnectSocket, h]
  · intro e throws
    rfl

/-- Handlers surviving `socket.off(e)` never match a subsequent filter for
`e`. -/
theorem filter_off_eq_nil (hs : SockHandlers) (e : String) :
    (socketOff hs e).filter (fun p => p.1 = e) = [] := by
  induction hs with
  | nil => rfl
  | cons p t ih =>
    by_cases hp : p.1 = e <;> simp [socketOff, List.filter_cons, hp]

/-- One `registerJarvisListener` call leaves exactly its own callback
attached for `jarvis_response`. -/
theorem socketDispatch_register (cb : Nat) (hs : SockHandlers) :
    socketDispatch (registerJarvisListener cb hs) "jarvis_response" =
      [cb] := by
  unfold registerJarvisListener socketOnEv socketDispatch
  rw [List.filter_append, filter_off_eq_nil]
  simp

/-- Dispatch after any run of `registerJarvisListener` calls: the last
registered callback alone, or the original handlers when no call was
made. -/
theorem socketDispatch_registerAll (cbs : List Nat) (hs : SockHandlers) :
    socketDispatch (registerAll cbs hs) "jarvis_response" =
      (match cbs.getLast? with
       | some c => [c]
       | none => socketDispatch hs "jarvis_response") := by
  induction cbs generalizing hs with
  | nil => rfl
  | cons c cs ih =>
    have h1 : registerAll (c :: cs) hs =
        registerAll cs (registerJarvisListener c hs) := rfl
    rw [h1, ih]
    cases cs with
    | nil => simp [socketDispatch_register, List.getLast?]
    | cons d ds =>
      rw [List.getLast?_cons_cons]
      cases hgl : (d :: ds).getLast? with
      | none => exact absurd (List.getLast?_eq_none_iff.mp hgl) (by simp)
      | some x => rfl

/-- C10: after any positive number of successive `registerJarvisListener`
calls, exactly one handler is attached for `jarvis_response` — dispatching
the event invokes precisely the most recently registered callback, once. -/
theorem jarvis_single_listener (cbs : List Nat) (hs : SockHandlers)
    (hne : cbs ≠ []) :
    socketDispatch (registerAll cbs hs) "jarvis_response" =
      cbs.getLast?.toList := by
  have haux := socketDispatch_registerAll cbs hs
  cases hg : cbs.getLast? with
  | none => exact absurd (List.getLast?_eq_none_iff.mp hg) hne
  | some c =>
    rw [haux, hg]
    rfl

/-- Witness for `jarvis_single_listener`: three successive registrations on
a socket that already carried a `jarvis_response` handler leave only the
last callback attached. -/
theorem jarvis_single_listener_witness :
    socketDispatch
        (registerAll [1, 2, 3] [("jarvis_response", 9), ("task_update", 4)])
        "jarvis_response" =
      ([1, 2, 3].getLast?).toList :=
  jarvis_single_listener [1, 2, 3] [("jarvis_response", 9),
    ("task_update", 4)] (by decide)

end Assistant
